import Mathlib

/-!
# Verification of the named-pipe server and entrypoint behavior of
# openjd-adaptor-runtime-for-python

Shallow embedding of `src/openjd/adaptor_runtime/_named_pipe/named_pipe_server.py`
(class `NamedPipeServer`, exception class `MultipleErrors`) and of the
entrypoint behavior exercised by `test/openjd/adaptor_runtime/unit/test_entrypoint.py`.

Win32 calls (`CreateNamedPipe`, `ConnectNamedPipe`, `DisconnectNamedPipe`,
`CloseHandle`) are modelled by environment parameters describing what each call
does on the given input; pipe handles are modelled as natural numbers.
-/

set_option autoImplicit false

/-- A Python exception as far as the named-pipe server distinguishes them:
`pywintypes.error` values carry a Windows error code (`e.winerror`, also
`e.args[0]`), and every other exception is opaque apart from its message. -/
inductive PyExc where
  /-- a `pywintypes.error` with its `winerror` code and message -/
  | pywin (winerror : Int) (msg : String)
  /-- any exception that is not a `pywintypes.error` -/
  | other (msg : String)
deriving Repr, DecidableEq

/-- `winerror.ERROR_INVALID_HANDLE` -/
def ERROR_INVALID_HANDLE : Int := 6

/-- `winerror.ERROR_PIPE_NOT_CONNECTED` -/
def ERROR_PIPE_NOT_CONNECTED : Int := 233

/-- The `MultipleErrors` exception class: aggregates a list of exceptions
raised during shutdown. -/
structure MultipleErrors where
  errors : List PyExc
deriving Repr, DecidableEq

/-- `MultipleErrors.__str__`: `"Multiple errors occurred: "` followed by the
string of each error, separated by `"; "`. -/
def MultipleErrors.str (excMsg : PyExc → String) (m : MultipleErrors) : String :=
  "Multiple errors occurred: " ++ String.intercalate "; " (m.errors.map excMsg)

/-- The mutable state of a `NamedPipeServer` instance set up by `__init__`:
`_server_type_name`, `_pipe_name`, `_named_pipe_instances`, the shared
`_shutdown_event`, and `_time_out`.  Pipe handles are modelled as `Nat`. -/
structure ServerState where
  server_type_name : String
  pipe_name : String
  named_pipe_instances : List Nat
  shutdown_event : Bool
  time_out : Nat
deriving Repr, DecidableEq

/-- Operations performed by `shutdown`, in program order: setting the shutdown
event, and one release attempt (the `DisconnectNamedPipe`/`CloseHandle` pair
inside one `try`) per popped pipe handle. -/
inductive ShutdownOp where
  | setEvent
  | releaseAttempt (h : Nat)
deriving Repr, DecidableEq

/-- One turn of the `while self._named_pipe_instances:` loop body of
`shutdown`, given the outcome `r` of releasing the popped handle
(`none` = the `DisconnectNamedPipe`/`CloseHandle` pair returned normally,
`some e` = it raised `e`).  Mirrors the source's `except` clauses:

* `except pywintypes.error as e:` — its body is `if e.args[0] ==
  winerror.ERROR_INVALID_HANDLE: pass` with no `else` branch, so every
  `pywintypes.error` leaves `error_list` unchanged, whatever its code;
* `except Exception as e:` — logs and appends `e` to `error_list`. -/
def shutdownCollect (r : Option PyExc) (error_list : List PyExc) : List PyExc :=
  match r with
  | none => error_list
  | some (PyExc.pywin w _) =>
      if w = ERROR_INVALID_HANDLE then error_list else error_list
  | some (PyExc.other m) => error_list ++ [PyExc.other m]

/-- The `while self._named_pipe_instances:` loop of `shutdown`, already
reordered into pop order (the Python `pop()` takes the last element, so the
caller passes the instance list reversed).  `release h` is the outcome of the
`DisconnectNamedPipe(h)`/`CloseHandle(h)` pair for handle `h`.  Returns the
final `error_list` and the trace of operations performed. -/
def shutdownDrain (release : Nat → Option PyExc) :
    List Nat → List PyExc → List ShutdownOp → List PyExc × List ShutdownOp
  | [], error_list, ops => (error_list, ops)
  | h :: rest, error_list, ops =>
      shutdownDrain release rest (shutdownCollect (release h) error_list)
        (ops ++ [ShutdownOp.releaseAttempt h])

/-- The observable outcome of one `shutdown()` call: the state it leaves
behind, the trace of operations it performed in order, and the exception it
raised (`some m` iff it raised `MultipleErrors m`). -/
structure ShutdownResult where
  state : ServerState
  ops : List ShutdownOp
  raised : Option MultipleErrors
deriving Repr, DecidableEq

/-- `NamedPipeServer.shutdown`: sets `_shutdown_event`, sleeps one second
(no modelled effect), then pops and releases every outstanding pipe instance,
collecting errors per `shutdownCollect`; finally raises
`MultipleErrors(error_list)` iff `error_list` is non-empty. -/
def NamedPipeServer.shutdown (release : Nat → Option PyExc) (s : ServerState) :
    ShutdownResult :=
  let s1 : ServerState := { s with shutdown_event := true }
  let r := shutdownDrain release s1.named_pipe_instances.reverse [] [ShutdownOp.setEvent]
  { state := { s1 with named_pipe_instances := [] }
    ops := r.2
    raised := if r.1.isEmpty then none else some ⟨r.1⟩ }

example :
    (NamedPipeServer.shutdown (fun _ => none)
      ⟨"NamedPipeServer", "p", [1, 2], false, 5000⟩).ops =
      [ShutdownOp.setEvent, ShutdownOp.releaseAttempt 2, ShutdownOp.releaseAttempt 1] := by
  decide

example :
    (NamedPipeServer.shutdown
      (fun h => if h = 2 then some (PyExc.other "boom") else none)
      ⟨"NamedPipeServer", "p", [1, 2, 3], false, 5000⟩).raised =
      some ⟨[PyExc.other "boom"]⟩ := by
  decide

/-- What the environment does in one iteration of the `serve_forever` loop:
`create` is the result of `win32pipe.CreateNamedPipe` (`none` models
`INVALID_HANDLE_VALUE`, `some h` a fresh handle), and `connect` the outcome of
`win32pipe.ConnectNamedPipe` on that handle. -/
structure IterEnv where
  create : Option Nat
  /-- `none` = `ConnectNamedPipe` returned normally; `some (w, m)` = it raised
  `pywintypes.error` with `winerror` `w` and message `m` (the only exception
  class the loop body catches). -/
  connect : Option (Int × String)
deriving Repr, DecidableEq

/-- Observable events of one pass through the body of the `serve_forever`
loop. `pre_connect_state` is the server state at the moment the blocking
`ConnectNamedPipe` wait begins (`none` when that call was never reached). -/
structure IterTrace where
  logged_create_error : Bool
  raised_create_error : Bool
  logged_connect_error : Bool
  broke_loop : Bool
  spawned_handler : Bool
  pre_connect_state : Option ServerState
deriving Repr, DecidableEq

/-- One pass through the body of the `while not self._shutdown_event.is_set():`
loop of `NamedPipeServer.serve_forever`, under environment `env`:

* `_create_pipe` returning `None` (an `INVALID_HANDLE_VALUE` from
  `CreateNamedPipe`) logs an error and raises `RuntimeError`;
* otherwise the fresh handle is appended to `_named_pipe_instances` and the
  body blocks in `ConnectNamedPipe`;
* a `pywintypes.error` with `winerror == ERROR_PIPE_NOT_CONNECTED` executes
  `break`;
* any other `pywintypes.error` is logged — and, the `else` branch not ending
  in `continue` or `raise`, control falls through to the
  `threading.Thread(...).start()` call, exactly as after a successful
  connect. -/
def serveIteration (env : IterEnv) (s : ServerState) : ServerState × IterTrace :=
  match env.create with
  | none =>
      (s, { logged_create_error := true, raised_create_error := true
            logged_connect_error := false, broke_loop := false
            spawned_handler := false, pre_connect_state := none })
  | some pipe_handle =>
      let s1 : ServerState :=
        { s with named_pipe_instances := s.named_pipe_instances ++ [pipe_handle] }
      match env.connect with
      | none =>
          (s1, { logged_create_error := false, raised_create_error := false
                 logged_connect_error := false, broke_loop := false
                 spawned_handler := true, pre_connect_state := some s1 })
      | some (w, _) =>
          if w = ERROR_PIPE_NOT_CONNECTED then
            (s1, { logged_create_error := false, raised_create_error := false
                   logged_connect_error := false, broke_loop := true
                   spawned_handler := false, pre_connect_state := some s1 })
          else
            (s1, { logged_create_error := false, raised_create_error := false
                   logged_connect_error := true, broke_loop := false
                   spawned_handler := true, pre_connect_state := some s1 })

/-- How a run of the `serve_forever` loop ended. -/
inductive ServeExit where
  /-- the loop guard saw `_shutdown_event` set -/
  | shutdownSignal
  /-- `break` after an `ERROR_PIPE_NOT_CONNECTED` connect failure -/
  | pipeNotConnected
  /-- the `RuntimeError` raised on pipe-creation failure propagated -/
  | createError
  /-- model artifact: the scripted environment ran out of iterations -/
  | envExhausted
deriving Repr, DecidableEq

/-- The `serve_forever` loop, scripted by a list of per-iteration environments.
Returns the final state, the traces of the iterations run (in order), and how
the loop ended. -/
def NamedPipeServer.serve_forever (envs : List IterEnv) (s : ServerState) :
    ServerState × List IterTrace × ServeExit :=
  if s.shutdown_event then (s, [], ServeExit.shutdownSignal)
  else
    match envs with
    | [] => (s, [], ServeExit.envExhausted)
    | env :: rest =>
        let p := serveIteration env s
        if p.2.raised_create_error then (p.1, [p.2], ServeExit.createError)
        else if p.2.broke_loop then (p.1, [p.2], ServeExit.pipeNotConnected)
        else
          let q := NamedPipeServer.serve_forever rest p.1
          (q.1, p.2 :: q.2.1, q.2.2)

/-- The operating system the server is constructed on, as distinguished by
`OSName`. -/
inductive OSKind where
  | windows
  | linux
  | macos
deriving Repr, DecidableEq

/-- `OSName.is_windows()` -/
def OSName.is_windows (os : OSKind) : Bool :=
  match os with
  | OSKind.windows => true
  | _ => false

/-- `OSName._get_os_name()`: the display name of the current operating
system. -/
def OSName.get_os_name (os : OSKind) : String :=
  match os with
  | OSKind.windows => "Windows"
  | OSKind.linux => "Linux"
  | OSKind.macos => "macOS"

/-- `NamedPipeServer.__init__(pipe_name, shutdown_event)` on operating system
`os`, for a concrete subclass named `server_type_name`
(`self.__class__.__name__`) and configured default timeout
`default_timeout` (`DEFAULT_NAMED_PIPE_TIMEOUT_MILLISECONDS`): on a
non-Windows system it raises `OSError` after setting only
`_server_type_name`, before `_named_pipe_instances`, `_pipe_name`,
`_shutdown_event` or `_time_out` are assigned; on Windows it returns the
fully initialized state with an empty instance list. -/
def NamedPipeServer.init (os : OSKind) (server_type_name : String)
    (pipe_name : String) (shutdown_event : Bool) (default_timeout : Nat) :
    Except String ServerState :=
  if !OSName.is_windows os then
    Except.error
      (server_type_name ++ " can be only used on Windows Operating Systems. " ++
        "Current Operating System is " ++ OSName.get_os_name os)
  else
    Except.ok
      { server_type_name := server_type_name
        pipe_name := pipe_name
        named_pipe_instances := []
        shutdown_event := shutdown_event
        time_out := default_timeout }

example :
    (NamedPipeServer.serve_forever
      [⟨some 1, none⟩, ⟨some 2, some (ERROR_PIPE_NOT_CONNECTED, "gone")⟩]
      ⟨"S", "p", [], false, 5000⟩).2.2 = ServeExit.pipeNotConnected := by
  decide

example :
    ((NamedPipeServer.serve_forever
      [⟨some 1, none⟩, ⟨some 2, none⟩]
      ⟨"S", "p", [], false, 5000⟩).1).named_pipe_instances = [1, 2] := by
  decide

/-- Behavior of one adaptor instance's lifecycle operations: for each of
`_start`, `_run`, `_stop`, `_cleanup`, `none` means the call returns normally
and `some msg` means it raises an exception with message `msg`. -/
structure AdaptorBehavior where
  start_exc : Option String
  run_exc : Option String
  stop_exc : Option String
  cleanup_exc : Option String
deriving Repr, DecidableEq

/-- Observable outcome of running the foreground path: how many times each
lifecycle operation was invoked, the error messages logged (in order), and the
exception that propagated to the caller, if any. -/
structure ForegroundOutcome where
  start_calls : Nat
  run_calls : Nat
  stop_calls : Nat
  cleanup_calls : Nat
  logs : List String
  raised : Option String
deriving Repr, DecidableEq

/-- Modelled from the spec: the foreground (non-daemon, `run` command) path of
`EntryPoint.start` is not under `src/` (only its unit tests are).  Per the
spec's error-handling design and the behavior asserted by
`TestStart.test_runs_in_run_mode`, `test_raises_adaptor_exception` and
`test_raises_adaptor_cleanup_exception`: the adaptor runner's `_start`,
`_run`, `_stop`, `_cleanup` are invoked in order inside a `try` block; if any
of them raises, `"Error running the adaptor: ..."` is logged and a best-effort
`_cleanup` is attempted in the handler; if that cleanup itself raises,
`"Error cleaning up the adaptor: ..."` is also logged and the cleanup
exception is what is re-raised, otherwise the original exception is
re-raised. -/
def EntryPoint.runForeground (b : AdaptorBehavior) : ForegroundOutcome :=
  let errorHandler (e : String) (calls : Nat × Nat × Nat × Nat) : ForegroundOutcome :=
    match b.cleanup_exc with
    | some ce =>
        { start_calls := calls.1, run_calls := calls.2.1, stop_calls := calls.2.2.1
          cleanup_calls := calls.2.2.2 + 1
          logs := ["Error running the adaptor: " ++ e,
                   "Error cleaning up the adaptor: " ++ ce]
          raised := some ce }
    | none =>
        { start_calls := calls.1, run_calls := calls.2.1, stop_calls := calls.2.2.1
          cleanup_calls := calls.2.2.2 + 1
          logs := ["Error running the adaptor: " ++ e]
          raised := some e }
  match b.start_exc with
  | some e => errorHandler e (1, 0, 0, 0)
  | none =>
    match b.run_exc with
    | some e => errorHandler e (1, 1, 0, 0)
    | none =>
      match b.stop_exc with
      | some e => errorHandler e (1, 1, 1, 0)
      | none =>
        match b.cleanup_exc with
        | some e => errorHandler e (1, 1, 1, 1)
        | none =>
            { start_calls := 1, run_calls := 1, stop_calls := 1, cleanup_calls := 1
              logs := [], raised := none }

/-- A filesystem path: whether it is absolute, and its components. -/
structure PathName where
  absolute : Bool
  components : List String
deriving Repr, DecidableEq

/-- `os.path.isabs` -/
def os_path_isabs (p : PathName) : Bool := p.absolute

/-- `os.path.abspath` with current working directory `cwd` (an absolute path
given by its components): a relative path is joined onto `cwd`; an absolute
path is returned unchanged. -/
def os_path_abspath (cwd : List String) (p : PathName) : PathName :=
  if p.absolute then p else { absolute := true, components := cwd ++ p.components }

/-- Modelled from the spec: the daemon-command path of `EntryPoint.start` is
not under `src/` (only its unit tests are).  Per the spec's endpoint-path
resolution rule and `TestStart.test_makes_connection_file_path_absolute`: the
connection-descriptor path passed on the command line is checked with
`os.path.isabs`; when relative it is replaced by `os.path.abspath` of itself
(resolved against the current working directory); the result is the path the
`FrontendRunner` is constructed with. -/
def EntryPoint.frontendRunnerConnectionFile (cwd : List String)
    (connection_file : PathName) : PathName :=
  if os_path_isabs connection_file then connection_file
  else os_path_abspath cwd connection_file

example :
    EntryPoint.frontendRunnerConnectionFile ["jobs", "42"] ⟨false, ["conn"]⟩ =
      ⟨true, ["jobs", "42", "conn"]⟩ := by
  decide

example :
    (EntryPoint.runForeground ⟨some "s", none, none, some "c"⟩).raised = some "c" := by
  decide

theorem shutdownDrain_ops (release : Nat → Option PyExc) (l : List Nat)
    (error_list : List PyExc) (ops : List ShutdownOp) :
    (shutdownDrain release l error_list ops).2 =
      ops ++ l.map ShutdownOp.releaseAttempt := by
  induction l generalizing error_list ops with
  | nil => simp [shutdownDrain]
  | cons h t ih => simp [shutdownDrain, ih]

theorem releaseAttempt_injective : Function.Injective ShutdownOp.releaseAttempt :=
  fun _ _ hab => ShutdownOp.releaseAttempt.inj hab

/-- C5: after a completed `shutdown()` call, a second `shutdown()` call (with
any behavior of the release operations, which are not reached) raises no
error and leaves the state exactly as the first call left it: shutdown event
set and no pending pipe instances. -/
theorem shutdown_idempotent (release release2 : Nat → Option PyExc)
    (s : ServerState) :
    (NamedPipeServer.shutdown release2 (NamedPipeServer.shutdown release s).state).raised
        = none ∧
      (NamedPipeServer.shutdown release2 (NamedPipeServer.shutdown release s).state).state
        = (NamedPipeServer.shutdown release s).state ∧
      (NamedPipeServer.shutdown release s).state.shutdown_event = true ∧
      (NamedPipeServer.shutdown release s).state.named_pipe_instances = [] := by
  cases s
  simp [NamedPipeServer.shutdown, shutdownDrain]

/-- C6: `shutdown()` performs the event-set first and then one release attempt
per pending pipe instance, in pop order; on return (whether or not it raises
`MultipleErrors`) the pending list is empty, the event is set, and every
handle has had release attempted exactly as many times as it was pending. -/
theorem shutdown_drains_all_after_event (release : Nat → Option PyExc)
    (s : ServerState) :
    (NamedPipeServer.shutdown release s).ops =
        ShutdownOp.setEvent ::
          s.named_pipe_instances.reverse.map ShutdownOp.releaseAttempt ∧
      (NamedPipeServer.shutdown release s).state.named_pipe_instances = [] ∧
      (NamedPipeServer.shutdown release s).state.shutdown_event = true ∧
      ∀ h : Nat,
        (NamedPipeServer.shutdown release s).ops.count (ShutdownOp.releaseAttempt h)
          = s.named_pipe_instances.count h := by
  refine ⟨?_, rfl, rfl, ?_⟩
  · simp [NamedPipeServer.shutdown, shutdownDrain_ops]
  · intro h
    simp [NamedPipeServer.shutdown, shutdownDrain_ops, List.count_cons,
      List.count_map_of_injective _ _ releaseAttempt_injective]

/-- C1 (code bug): releasing a pending pipe instance during `shutdown()` that
raises a `pywintypes.error` whose code is not `ERROR_INVALID_HANDLE` (here
code 5, `ERROR_ACCESS_DENIED`) is silently dropped: the release is attempted,
but the error is neither collected into the error list nor raised as
`MultipleErrors` — the `except pywintypes.error` clause has no `else` branch,
so only non-`pywintypes` exceptions reach `error_list`. -/
theorem shutdown_swallows_unexpected_pywin_error :
    (NamedPipeServer.shutdown (fun _ => some (PyExc.pywin 5 "Access is denied."))
        ⟨"NamedPipeServer", "p", [1], false, 5000⟩).raised = none ∧
      (NamedPipeServer.shutdown (fun _ => some (PyExc.pywin 5 "Access is denied."))
        ⟨"NamedPipeServer", "p", [1], false, 5000⟩).ops =
        [ShutdownOp.setEvent, ShutdownOp.releaseAttempt 1] ∧
      (NamedPipeServer.shutdown (fun _ => some (PyExc.other "boom"))
        ⟨"NamedPipeServer", "p", [1], false, 5000⟩).raised =
        some ⟨[PyExc.other "boom"]⟩ := by
  refine ⟨rfl, rfl, rfl⟩

/-- C2 (code bug): when `ConnectNamedPipe` fails with a `pywintypes.error`
other than `ERROR_PIPE_NOT_CONNECTED` (here code 5), the iteration logs the
connect error and nevertheless spawns a Connection Handler thread for the
unconnected instance: the logging branch does not end in `continue`, so
control falls through to `threading.Thread(...).start()`. -/
theorem serve_spawns_handler_on_failed_connect :
    (serveIteration ⟨some 7, some (5, "Access is denied.")⟩
        ⟨"NamedPipeServer", "p", [], false, 5000⟩).2.logged_connect_error = true ∧
      (serveIteration ⟨some 7, some (5, "Access is denied.")⟩
        ⟨"NamedPipeServer", "p", [], false, 5000⟩).2.spawned_handler = true := by
  refine ⟨rfl, rfl⟩

/-- C3: when the next iteration's connect wait fails with
`ERROR_PIPE_NOT_CONNECTED`, `serve_forever` ends at once with the
pipe-not-connected exit: that single iteration neither logs a connect error,
nor spawns a handler, nor raises, and no further iteration runs. -/
theorem serve_exits_silently_on_pipe_not_connected (envs rest : List IterEnv)
    (env : IterEnv) (s : ServerState) (h : Nat) (m : String)
    (hevent : s.shutdown_event = false)
    (henvs : envs = env :: rest)
    (hcreate : env.create = some h)
    (hconnect : env.connect = some (ERROR_PIPE_NOT_CONNECTED, m)) :
    NamedPipeServer.serve_forever envs s =
      ({ s with named_pipe_instances := s.named_pipe_instances ++ [h] },
        [{ logged_create_error := false, raised_create_error := false
           logged_connect_error := false, broke_loop := true
           spawned_handler := false
           pre_connect_state :=
             some { s with named_pipe_instances := s.named_pipe_instances ++ [h] } }],
        ServeExit.pipeNotConnected) := by
  subst henvs
  simp [NamedPipeServer.serve_forever, serveIteration, hevent, hcreate, hconnect]

theorem serve_exits_silently_on_pipe_not_connected_witness :
    NamedPipeServer.serve_forever
        [⟨some 4, some (ERROR_PIPE_NOT_CONNECTED, "not connected")⟩]
        ⟨"NamedPipeServer", "p", [9], false, 5000⟩ =
      (⟨"NamedPipeServer", "p", [9, 4], false, 5000⟩,
        [{ logged_create_error := false, raised_create_error := false
           logged_connect_error := false, broke_loop := true
           spawned_handler := false
           pre_connect_state := some ⟨"NamedPipeServer", "p", [9, 4], false, 5000⟩ }],
        ServeExit.pipeNotConnected) :=
  serve_exits_silently_on_pipe_not_connected
    [⟨some 4, some (ERROR_PIPE_NOT_CONNECTED, "not connected")⟩] []
    ⟨some 4, some (ERROR_PIPE_NOT_CONNECTED, "not connected")⟩
    ⟨"NamedPipeServer", "p", [9], false, 5000⟩ 4 "not connected" rfl rfl rfl rfl

/-- C4: when `_create_pipe` fails (the creation call yields an invalid
handle), `serve_forever` logs the failure and raises, terminating the loop:
exactly one (aborted) iteration ran, no handler was spawned, and the pending
instance list is exactly what it was before — the failed instance was not
appended. -/
theorem serve_create_failure_is_fatal (envs rest : List IterEnv) (env : IterEnv)
    (s : ServerState)
    (hevent : s.shutdown_event = false)
    (henvs : envs = env :: rest)
    (hcreate : env.create = none) :
    NamedPipeServer.serve_forever envs s =
      (s, [{ logged_create_error := true, raised_create_error := true
             logged_connect_error := false, broke_loop := false
             spawned_handler := false, pre_connect_state := none }],
        ServeExit.createError) := by
  subst henvs
  simp [NamedPipeServer.serve_forever, serveIteration, hevent, hcreate]

theorem serve_create_failure_is_fatal_witness :
    NamedPipeServer.serve_forever [⟨none, none⟩, ⟨some 1, none⟩]
        ⟨"NamedPipeServer", "p", [2], false, 5000⟩ =
      (⟨"NamedPipeServer", "p", [2], false, 5000⟩,
        [{ logged_create_error := true, raised_create_error := true
           logged_connect_error := false, broke_loop := false
           spawned_handler := false, pre_connect_state := none }],
        ServeExit.createError) :=
  serve_create_failure_is_fatal [⟨none, none⟩, ⟨some 1, none⟩] [⟨some 1, none⟩]
    ⟨none, none⟩ ⟨"NamedPipeServer", "p", [2], false, 5000⟩ rfl rfl rfl

/-- C10: in any iteration whose pipe creation succeeded with handle `h`, the
state at the moment the blocking connect wait begins already has `h` appended
to the pending instance list, so a concurrent `shutdown()` run against that
state attempts a release of `h` — which is what lets shutdown interrupt the
pending accept. -/
theorem serve_appends_instance_before_connect_wait (env : IterEnv)
    (s : ServerState) (h : Nat) (release : Nat → Option PyExc)
    (hcreate : env.create = some h) :
    ∃ pre : ServerState,
      (serveIteration env s).2.pre_connect_state = some pre ∧
        pre.named_pipe_instances = s.named_pipe_instances ++ [h] ∧
        h ∈ pre.named_pipe_instances ∧
        ShutdownOp.releaseAttempt h ∈ (NamedPipeServer.shutdown release pre).ops := by
  refine ⟨{ s with named_pipe_instances := s.named_pipe_instances ++ [h] }, ?_, rfl, by
    simp, ?_⟩
  · rcases henv : env.connect with _ | ⟨w, m⟩
    · simp [serveIteration, hcreate, henv]
    · simp only [serveIteration, hcreate, henv]
      split <;> simp
  · rcases shutdown_drains_all_after_event release
      { s with named_pipe_instances := s.named_pipe_instances ++ [h] } with ⟨hops, -, -, -⟩
    rw [hops]
    exact List.mem_cons_of_mem _ (List.mem_map_of_mem _ (by simp))

theorem serve_appends_instance_before_connect_wait_witness :
    ∃ pre : ServerState,
      (serveIteration ⟨some 3, none⟩ ⟨"NamedPipeServer", "p", [8], false, 5000⟩).2.pre_connect_state
          = some pre ∧
        pre.named_pipe_instances = [8] ++ [3] ∧
        3 ∈ pre.named_pipe_instances ∧
        ShutdownOp.releaseAttempt 3 ∈ (NamedPipeServer.shutdown (fun _ => none) pre).ops :=
  serve_appends_instance_before_connect_wait ⟨some 3, none⟩
    ⟨"NamedPipeServer", "p", [8], false, 5000⟩ 3 (fun _ => none) rfl

/-- C7: in the foreground run path, if the adaptor's start operation raises,
cleanup is still attempted exactly once and the run failure is logged; when
cleanup returns normally the start exception propagates, and when cleanup
itself raises, the cleanup exception is what propagates and both failures are
logged. -/
theorem runForeground_cleanup_on_start_failure (b : AdaptorBehavior) (e : String)
    (hstart : b.start_exc = some e) :
    (EntryPoint.runForeground b).start_calls = 1 ∧
      (EntryPoint.runForeground b).cleanup_calls = 1 ∧
      "Error running the adaptor: " ++ e ∈ (EntryPoint.runForeground b).logs ∧
      (b.cleanup_exc = none → (EntryPoint.runForeground b).raised = some e) ∧
      ∀ ce : String, b.cleanup_exc = some ce →
        (EntryPoint.runForeground b).raised = some ce ∧
          "Error cleaning up the adaptor: " ++ ce ∈ (EntryPoint.runForeground b).logs := by
  rcases b with ⟨bs, br, bt, bc⟩
  cases bs with
  | none => simp at hstart
  | some e0 =>
      cases hstart
      cases bc <;> simp [EntryPoint.runForeground]

theorem runForeground_cleanup_on_start_failure_witness :
    (EntryPoint.runForeground ⟨some "start failed", none, none, some "cleanup failed"⟩).start_calls
        = 1 ∧
      (EntryPoint.runForeground
        ⟨some "start failed", none, none, some "cleanup failed"⟩).cleanup_calls = 1 ∧
      "Error running the adaptor: " ++ "start failed" ∈
        (EntryPoint.runForeground ⟨some "start failed", none, none, some "cleanup failed"⟩).logs ∧
      ((⟨some "start failed", none, none, some "cleanup failed"⟩ : AdaptorBehavior).cleanup_exc
          = none →
        (EntryPoint.runForeground
          ⟨some "start failed", none, none, some "cleanup failed"⟩).raised
            = some "start failed") ∧
      ∀ ce : String,
        (⟨some "start failed", none, none, some "cleanup failed"⟩ : AdaptorBehavior).cleanup_exc
            = some ce →
        (EntryPoint.runForeground
          ⟨some "start failed", none, none, some "cleanup failed"⟩).raised = some ce ∧
          "Error cleaning up the adaptor: " ++ ce ∈
            (EntryPoint.runForeground
              ⟨some "start failed", none, none, some "cleanup failed"⟩).logs :=
  runForeground_cleanup_on_start_failure
    ⟨some "start failed", none, none, some "cleanup failed"⟩ "start failed" rfl

/-- C8: the connection-descriptor path a frontend daemon command passes to the
FrontendRunner constructor: a relative path is made absolute against the
current working directory, and an absolute path is used unchanged. -/
theorem connection_file_made_absolute (cwd : List String) (p : PathName) :
    (p.absolute = false →
      EntryPoint.frontendRunnerConnectionFile cwd p =
        { absolute := true, components := cwd ++ p.components }) ∧
      (p.absolute = true → EntryPoint.frontendRunnerConnectionFile cwd p = p) := by
  constructor <;> intro hp <;>
    simp [EntryPoint.frontendRunnerConnectionFile, os_path_isabs, os_path_abspath, hp]

theorem connection_file_made_absolute_witness :
    EntryPoint.frontendRunnerConnectionFile ["jobs", "42"] ⟨false, ["conn"]⟩ =
        { absolute := true, components := ["jobs", "42"] ++ ["conn"] } ∧
      EntryPoint.frontendRunnerConnectionFile ["jobs", "42"] ⟨true, ["etc", "conn"]⟩ =
        ⟨true, ["etc", "conn"]⟩ :=
  ⟨(connection_file_made_absolute ["jobs", "42"] ⟨false, ["conn"]⟩).1 rfl,
    (connection_file_made_absolute ["jobs", "42"] ⟨true, ["etc", "conn"]⟩).2 rfl⟩

/-- C9: constructing a NamedPipeServer on a non-Windows operating system
raises an OSError whose message names the server type and the current
operating system, and yields no server state; on Windows, construction
succeeds with an empty pending-instance list and the given pipe name,
shutdown event and timeout. -/
theorem init_raises_off_windows (os : OSKind) (tn pn : String) (ev : Bool)
    (t : Nat) :
    (OSName.is_windows os = false →
      NamedPipeServer.init os tn pn ev t =
        Except.error (tn ++ " can be only used on Windows Operating Systems. " ++
          "Current Operating System is " ++ OSName.get_os_name os)) ∧
      (OSName.is_windows os = true →
        NamedPipeServer.init os tn pn ev t = Except.ok ⟨tn, pn, [], ev, t⟩) := by
  constructor <;> intro h <;> simp [NamedPipeServer.init, h]

theorem init_raises_off_windows_witness :
    NamedPipeServer.init OSKind.linux "NamedPipeServer" "p" false 5000 =
        Except.error ("NamedPipeServer" ++
          " can be only used on Windows Operating Systems. " ++
          "Current Operating System is " ++ OSName.get_os_name OSKind.linux) ∧
      NamedPipeServer.init OSKind.windows "NamedPipeServer" "p" false 5000 =
        Except.ok ⟨"NamedPipeServer", "p", [], false, 5000⟩ :=
  ⟨(init_raises_off_windows OSKind.linux "NamedPipeServer" "p" false 5000).1 rfl,
    (init_raises_off_windows OSKind.windows "NamedPipeServer" "p" false 5000).2 rfl⟩
